import Mathlib

/-!
Shallow embedding of the authentication / user-directory helper functions of
the travel-agency dashboard (`getExistingUser`, `getGooglePicture`,
`storeUserData`, `loginWithGoogle`, `getUser`, `getAllUsers`).

Every call to the external backend SDK (`account.get`, `account.getSession`,
`database.listDocuments`, `database.createDocument`, the Google People
`fetch`) is modelled by an environment field holding that call's outcome:
`Except AppError` for calls that can throw, and a dedicated outcome type for
the HTTP fetch.  The functions are embedded as pure functions from such an
environment to their JavaScript return value together with a trace of the
side-effecting calls they issued, in issue order.  JavaScript's three-way
distinction between returning a value, returning `null`, and returning
`undefined` (a bare `return;`) is kept by the `JSReturn` type.  The source
functions wrap their whole body in `try/catch` and never rethrow from the
outermost level, so the embedded functions are total: an uncaught inner
throw lands in the outer catch, which is reflected directly in the
embedding.
-/

namespace AuthApi

/-- An error thrown by the backend SDK; the code only ever inspects its
numeric `code` field (`err.code === 401`). -/
structure AppError where
  code : Option Int
deriving DecidableEq

/-- The authenticated principal returned by `account.get()`: its `$id`
(called `accountId` here), `email` and `name` are the fields the code
reads. -/
structure Identity where
  accountId : String
  email : String
  name : String
deriving DecidableEq

/-- A stored user document in the user collection: `accountId`, `email`,
`name`, nullable `imageUrl`, and the `joinedAt` creation timestamp. -/
structure StoredProfile where
  accountId : String
  email : String
  name : String
  imageUrl : Option String
  joinedAt : String
deriving DecidableEq

/-- The current session returned by `account.getSession("current")`; the
code reads only `providerAccessToken`, which may be absent. -/
structure Session where
  providerAccessToken : Option String
deriving DecidableEq

/-- Body of the HTTP response to the Google People request: `res.json()`
either throws (`malformed`) or parses, in which case the optional chain
`data.photos?.[0]?.url` yields `photoUrl` (possibly absent). -/
inductive JsonBody
  | malformed
  | parsed (photoUrl : Option String)
deriving DecidableEq

/-- Outcome of the `fetch` call in `getGooglePicture`: the promise rejects
(`netError`), or a response arrives with its `ok` flag and a body. -/
inductive HttpOutcome
  | netError
  | response (ok : Bool) (body : JsonBody)
deriving DecidableEq

/-- Embedding of `getGooglePicture`: a network error is caught and yields
null; a non-ok response throws and is caught, yielding null; a malformed
body throws in `res.json()` and is caught, yielding null; otherwise the
parsed photo URL (or null when the optional chain misses) is returned. -/
def getGooglePicture : HttpOutcome → Option String
  | .netError => none
  | .response ok body =>
      if ok then
        match body with
        | .malformed => none
        | .parsed photoUrl => photoUrl
      else none

/-- A fetch outcome the spec counts as a failure: network error, non-success
HTTP status, or malformed body. -/
def fetchFailed : HttpOutcome → Bool
  | .netError => true
  | .response ok body =>
      !ok || (match body with | .malformed => true | .parsed _ => false)

/-- Queries passed to `database.listDocuments`, mirroring the `Query`
constructors the code uses. -/
inductive Query
  | equal (field : String) (value : String)
  | select (fields : List String)
  | limit (n : Nat)
  | offset (n : Nat)
deriving DecidableEq

/-- One side-effecting backend call issued by the code, recorded in issue
order in the trace component of each embedded function. -/
inductive Event
  | accountGetCall
  | getSessionCall
  | pictureFetchCall (token : String)
  | listCall (queries : List Query)
  | createCall (data : StoredProfile)
  | redirectCall (path : String)
deriving DecidableEq

/-- A JavaScript return value: `undefined` (a bare `return;`), `null`, or a
proper value. -/
inductive JSReturn (α : Type)
  | undef
  | null
  | value (a : α)
deriving DecidableEq

/-- The response of `database.listDocuments`: the `documents` array and the
`total` count. -/
abbrev ListResponse := List StoredProfile × Nat

/-- Embedding of `getExistingUser`: queries the user collection for
`accountId = id`; on success returns `documents[0]` when `total > 0` and
null otherwise; any error is caught and yields null.  (JavaScript's
`documents[0]` on an empty array is `undefined`; both null and undefined
collapse to `none` here, as callers only ever test truthiness.) -/
def getExistingUser (id : String) (outcome : Except AppError ListResponse) :
    Option StoredProfile × List Event :=
  match outcome with
  | .ok (documents, total) =>
      (if total > 0 then documents.head? else none,
       [Event.listCall [Query.equal "accountId" id]])
  | .error _ => (none, [Event.listCall [Query.equal "accountId" id]])

/-- Environment of backend-call outcomes for one run of `storeUserData`. -/
structure StoreEnv where
  accountGet : Except AppError Identity
  getSessionOutcome : Except AppError Session
  pictureOutcome : HttpOutcome
  lookupOutcome : Except AppError ListResponse
  createOutcome : Except AppError Unit
  now : String

/-- The profile picture `storeUserData` resolves before its lookup: fetched
with the provider access token when the session has one (`session?.
providerAccessToken ?? null`), otherwise null. -/
def resolvedPicture (env : StoreEnv) : Option String :=
  match env.getSessionOutcome.toOption.bind Session.providerAccessToken with
  | some _ => getGooglePicture env.pictureOutcome
  | none => none

/-- Embedding of `storeUserData`: resolve the identity (401 redirects to
sign-in and returns undefined; other errors rethrow into the outer catch,
which returns null); read the current session (errors collapsed to null by
`.catch`); fetch the Google picture when a provider access token exists;
look up an existing user by accountId; return it if found; otherwise create
a document with accountId, email, name, imageUrl and joinedAt and return
it; a create failure lands in the outer catch, which returns null. -/
def storeUserData (env : StoreEnv) : JSReturn StoredProfile × List Event :=
  match env.accountGet with
  | .error e =>
      if e.code = some 401 then
        (JSReturn.undef, [Event.accountGetCall, Event.redirectCall "/sign-in"])
      else
        (JSReturn.null, [Event.accountGetCall])
  | .ok user =>
      let providerAccessToken : Option String :=
        env.getSessionOutcome.toOption.bind Session.providerAccessToken
      let fetchStep : Option String × List Event :=
        match providerAccessToken with
        | some tok => (getGooglePicture env.pictureOutcome, [Event.pictureFetchCall tok])
        | none => (none, [])
      let lookupStep := getExistingUser user.accountId env.lookupOutcome
      let pre : List Event :=
        Event.accountGetCall :: Event.getSessionCall :: (fetchStep.snd ++ lookupStep.snd)
      match lookupStep.fst with
      | some existingUser => (JSReturn.value existingUser, pre)
      | none =>
          let data : StoredProfile :=
            { accountId := user.accountId, email := user.email, name := user.name,
              imageUrl := fetchStep.fst, joinedAt := env.now }
          match env.createOutcome with
          | .ok _ => (JSReturn.value data, pre ++ [Event.createCall data])
          | .error _ => (JSReturn.null, pre ++ [Event.createCall data])

/-- The OAuth provider constant passed to `account.createOAuth2Session`. -/
inductive OAuthProvider
  | google
deriving DecidableEq

/-- The argument triple of one `account.createOAuth2Session` call. -/
structure OAuthCall where
  provider : OAuthProvider
  successUrl : String
  failureUrl : String
deriving DecidableEq

/-- Embedding of `loginWithGoogle`: starts the Google OAuth handshake with
success redirect `origin + "/"` and failure redirect `origin + "/404"`. -/
def loginWithGoogle (origin : String) : OAuthCall :=
  { provider := OAuthProvider.google
    successUrl := origin ++ "/"
    failureUrl := origin ++ "/404" }

/-- Environment of backend-call outcomes for one run of `getUser`. -/
structure GetUserEnv where
  accountGet : Except AppError Identity
  lookupOutcome : Except AppError ListResponse

/-- The field list of the select projection `getUser` requests. -/
def getUserSelectFields : List String :=
  ["name", "email", "imageUrl", "joinedAt", "accountId"]

/-- Embedding of `getUser`: resolve the identity (401 redirects to sign-in
and returns null; other errors rethrow into the outer catch, which returns
null); list documents with an accountId equality query and a select
projection of exactly five fields; return `documents[0]` when the array is
non-empty and null otherwise; a listing error lands in the outer catch,
which returns null. -/
def getUser (env : GetUserEnv) : JSReturn StoredProfile × List Event :=
  match env.accountGet with
  | .error e =>
      if e.code = some 401 then
        (JSReturn.null, [Event.accountGetCall, Event.redirectCall "/sign-in"])
      else
        (JSReturn.null, [Event.accountGetCall])
  | .ok user =>
      let qs : List Query :=
        [Query.equal "accountId" user.accountId, Query.select getUserSelectFields]
      match env.lookupOutcome with
      | .error _ => (JSReturn.null, [Event.accountGetCall, Event.listCall qs])
      | .ok (documents, _total) =>
          (match documents with
           | [] => JSReturn.null
           | d :: _ => JSReturn.value d,
           [Event.accountGetCall, Event.listCall qs])

/-- The page `getAllUsers` returns: the `users` array and the `total`
count. -/
structure UsersPage where
  users : List StoredProfile
  total : Nat
deriving DecidableEq

/-- Embedding of `getAllUsers`: list documents with limit and offset
queries and return `{ users, total }`; any error is caught and yields
`{ users: [], total: 0 }`. -/
def getAllUsers (limit offset : Nat) (outcome : Except AppError ListResponse) :
    UsersPage × List Event :=
  match outcome with
  | .ok (users, total) =>
      ({ users := users, total := total },
       [Event.listCall [Query.limit limit, Query.offset offset]])
  | .error _ =>
      ({ users := [], total := 0 },
       [Event.listCall [Query.limit limit, Query.offset offset]])

/-- Model of the external document store's list endpoint for a given stored
collection: the documents page under limit and offset, together with the
collection's total size, as the backend returns them on success. -/
def backendList (store : List StoredProfile) (limit offset : Nat) : ListResponse :=
  ((store.drop offset).take limit, store.length)

/-- The trace of `getExistingUser` is a single list call with an accountId
equality query, whatever the backend outcome. -/
theorem getExistingUser_snd (id : String) (outcome : Except AppError ListResponse) :
    (getExistingUser id outcome).snd = [Event.listCall [Query.equal "accountId" id]] := by
  cases outcome with
  | error e => rfl
  | ok r => cases r with | mk documents total => rfl

/-- C9: `loginWithGoogle` always starts the Google OAuth handshake with the
fixed success redirect path `/` and the fixed failure redirect path `/404`
appended to the current origin, and no other paths. -/
theorem loginWithGoogle_fixed_paths (origin : String) :
    loginWithGoogle origin =
      { provider := OAuthProvider.google
        successUrl := origin ++ "/"
        failureUrl := origin ++ "/404" } := rfl

/-- C6: for every limit and offset, when the backend listing call fails,
`getAllUsers` returns the empty page with total 0 instead of raising. -/
theorem getAllUsers_error_empty_page (limit offset : Nat) (e : AppError) :
    (getAllUsers limit offset (Except.error e)).fst = { users := [], total := 0 } := rfl

/-- C7: on an empty backend store, a successful `getAllUsers 10 0` call
returns the empty page with total 0. -/
theorem getAllUsers_empty_store :
    (getAllUsers 10 0 (Except.ok (backendList [] 10 0))).fst =
      { users := [], total := 0 } := rfl

/-- C1: when the lookup finds an existing profile for the resolved
identity's accountId, `storeUserData` returns that record unchanged and
issues no create call. -/
theorem storeUserData_existing_no_create (env : StoreEnv) (user : Identity)
    (p : StoredProfile) (rest : List StoredProfile) (total : Nat)
    (hget : env.accountGet = Except.ok user)
    (hlk : env.lookupOutcome = Except.ok (p :: rest, total))
    (htot : 0 < total) :
    (storeUserData env).fst = JSReturn.value p ∧
      ∀ d, Event.createCall d ∉ (storeUserData env).snd := by
  cases hs : env.getSessionOutcome.toOption.bind Session.providerAccessToken with
  | none => simp [storeUserData, getExistingUser, hget, hlk, htot, hs]
  | some tok => simp [storeUserData, getExistingUser, hget, hlk, htot, hs]

/-- Environment witnessing `storeUserData_existing_no_create`. -/
def envC1 : StoreEnv :=
  { accountGet := Except.ok ⟨"a1", "a@b.c", "Alice"⟩
    getSessionOutcome := Except.error ⟨none⟩
    pictureOutcome := HttpOutcome.netError
    lookupOutcome := Except.ok ([⟨"a1", "a@b.c", "Alice", none, "2024-01-01"⟩], 1)
    createOutcome := Except.ok ()
    now := "2024-02-02" }

/-- Witness: `storeUserData_existing_no_create` applied at a concrete
environment whose lookup finds a stored profile. -/
theorem storeUserData_existing_no_create_witness :
    (storeUserData envC1).fst = JSReturn.value ⟨"a1", "a@b.c", "Alice", none, "2024-01-01"⟩ ∧
      ∀ d, Event.createCall d ∉ (storeUserData envC1).snd :=
  storeUserData_existing_no_create envC1 ⟨"a1", "a@b.c", "Alice"⟩
    ⟨"a1", "a@b.c", "Alice", none, "2024-01-01"⟩ [] 1 rfl rfl (by decide)

/-- A failing fetch (network error, non-success status, malformed body)
makes `getGooglePicture` return null. -/
theorem getGooglePicture_of_failed {o : HttpOutcome} (h : fetchFailed o = true) :
    getGooglePicture o = none := by
  cases o with
  | netError => rfl
  | response ok body => cases ok <;> cases body <;> simp_all [fetchFailed, getGooglePicture]

/-- C2: for a new accountId (lookup finds nothing) whose picture fetch
fails for any reason, `storeUserData` swallows the failure and the created
profile has imageUrl null; the created record is returned. -/
theorem storeUserData_failed_fetch_null_image (env : StoreEnv) (user : Identity) (tok : String)
    (hget : env.accountGet = Except.ok user)
    (hsess : env.getSessionOutcome = Except.ok ⟨some tok⟩)
    (hfail : fetchFailed env.pictureOutcome = true)
    (hnone : (getExistingUser user.accountId env.lookupOutcome).fst = none)
    (hcre : env.createOutcome = Except.ok ()) :
    (storeUserData env).fst = JSReturn.value
      { accountId := user.accountId, email := user.email, name := user.name,
        imageUrl := none, joinedAt := env.now } := by
  simp [storeUserData, hget, hsess, hnone, hcre, Except.toOption,
    getGooglePicture_of_failed hfail]

/-- Environment witnessing `storeUserData_failed_fetch_null_image`. -/
def envC2 : StoreEnv :=
  { accountGet := Except.ok ⟨"b2", "b@c.d", "Bob"⟩
    getSessionOutcome := Except.ok ⟨some "tok2"⟩
    pictureOutcome := HttpOutcome.response false (JsonBody.parsed (some "pic"))
    lookupOutcome := Except.ok ([], 0)
    createOutcome := Except.ok ()
    now := "2024-03-03" }

/-- Witness: `storeUserData_failed_fetch_null_image` applied at a concrete
environment whose picture fetch returns a non-ok response. -/
theorem storeUserData_failed_fetch_null_image_witness :
    (storeUserData envC2).fst = JSReturn.value
      { accountId := "b2", email := "b@c.d", name := "Bob",
        imageUrl := none, joinedAt := "2024-03-03" } :=
  storeUserData_failed_fetch_null_image envC2 ⟨"b2", "b@c.d", "Bob"⟩ "tok2"
    rfl rfl (by decide) (by decide) rfl

/-- C4: whenever the lookup finds no existing profile and the create call
succeeds, `storeUserData` creates a record carrying exactly the identity's
accountId, email and name, the resolved picture (or null), and the current
timestamp, issues the create call with exactly that data, and returns the
created record. -/
theorem storeUserData_creates_record (env : StoreEnv) (user : Identity)
    (hget : env.accountGet = Except.ok user)
    (hnone : (getExistingUser user.accountId env.lookupOutcome).fst = none)
    (hcre : env.createOutcome = Except.ok ()) :
    (storeUserData env).fst = JSReturn.value
      { accountId := user.accountId, email := user.email, name := user.name,
        imageUrl := resolvedPicture env, joinedAt := env.now } ∧
    Event.createCall
      { accountId := user.accountId, email := user.email, name := user.name,
        imageUrl := resolvedPicture env, joinedAt := env.now } ∈ (storeUserData env).snd := by
  cases hs : env.getSessionOutcome.toOption.bind Session.providerAccessToken with
  | none => simp [storeUserData, resolvedPicture, hget, hnone, hcre, hs]
  | some tok => simp [storeUserData, resolvedPicture, hget, hnone, hcre, hs]

/-- Environment witnessing `storeUserData_creates_record`. -/
def envC4 : StoreEnv :=
  { accountGet := Except.ok ⟨"c3", "c@d.e", "Carol"⟩
    getSessionOutcome := Except.ok ⟨some "tok3"⟩
    pictureOutcome := HttpOutcome.response true (JsonBody.parsed (some "photo3"))
    lookupOutcome := Except.ok ([], 0)
    createOutcome := Except.ok ()
    now := "2024-04-04" }

/-- Witness: `storeUserData_creates_record` applied at a concrete
environment with a new accountId and a successful picture fetch. -/
theorem storeUserData_creates_record_witness :
    (storeUserData envC4).fst = JSReturn.value
      { accountId := "c3", email := "c@d.e", name := "Carol",
        imageUrl := resolvedPicture envC4, joinedAt := "2024-04-04" } ∧
    Event.createCall
      { accountId := "c3", email := "c@d.e", name := "Carol",
        imageUrl := resolvedPicture envC4, joinedAt := "2024-04-04" } ∈
      (storeUserData envC4).snd :=
  storeUserData_creates_record envC4 ⟨"c3", "c@d.e", "Carol"⟩ rfl (by decide) rfl

/-- Environment with an existing stored profile and a provider access
token, exercising the fetch-versus-lookup ordering of `storeUserData`. -/
def envC3 : StoreEnv :=
  { accountGet := Except.ok ⟨"d4", "d@e.f", "Dan"⟩
    getSessionOutcome := Except.ok ⟨some "tok4"⟩
    pictureOutcome := HttpOutcome.response true (JsonBody.parsed (some "photo4"))
    lookupOutcome := Except.ok ([⟨"d4", "d@e.f", "Dan", none, "2024-01-02"⟩], 1)
    createOutcome := Except.ok ()
    now := "2024-05-05" }

/-- C3 counterexample: in a run where the lookup finds an existing profile,
the picture fetch is still issued, and it is issued before the lookup call,
so the fetch is not gated on the lookup result. -/
theorem storeUserData_fetch_despite_existing :
    (storeUserData envC3).snd =
      [Event.accountGetCall, Event.getSessionCall, Event.pictureFetchCall "tok4",
       Event.listCall [Query.equal "accountId" "d4"]] ∧
    (storeUserData envC3).fst =
      JSReturn.value ⟨"d4", "d@e.f", "Dan", none, "2024-01-02"⟩ := by decide

/-- C3 amended: whenever the session carries a provider access token, the
first four calls of `storeUserData` are identity resolution, session read,
picture fetch, then the stored-profile lookup — the fetch always precedes
the lookup and does not depend on its result. -/
theorem storeUserData_fetch_before_lookup (env : StoreEnv) (user : Identity) (tok : String)
    (hget : env.accountGet = Except.ok user)
    (hsess : env.getSessionOutcome = Except.ok ⟨some tok⟩) :
    (storeUserData env).snd.take 4 =
      [Event.accountGetCall, Event.getSessionCall, Event.pictureFetchCall tok,
       Event.listCall [Query.equal "accountId" user.accountId]] := by
  cases hfst : (getExistingUser user.accountId env.lookupOutcome).fst with
  | some p =>
      simp [storeUserData, hget, hsess, Except.toOption, hfst,
        getExistingUser_snd user.accountId env.lookupOutcome]
  | none =>
      cases hc : env.createOutcome with
      | ok u =>
          simp [storeUserData, hget, hsess, Except.toOption, hfst, hc,
            getExistingUser_snd user.accountId env.lookupOutcome]
      | error e =>
          simp [storeUserData, hget, hsess, Except.toOption, hfst, hc,
            getExistingUser_snd user.accountId env.lookupOutcome]

/-- Witness: `storeUserData_fetch_before_lookup` applied at a concrete
environment with a provider access token. -/
theorem storeUserData_fetch_before_lookup_witness :
    (storeUserData envC3).snd.take 4 =
      [Event.accountGetCall, Event.getSessionCall, Event.pictureFetchCall "tok4",
       Event.listCall [Query.equal "accountId" "d4"]] :=
  storeUserData_fetch_before_lookup envC3 ⟨"d4", "d@e.f", "Dan"⟩ "tok4" rfl rfl

/-- Environment whose stored-profile lookup fails with a non-401 error but
whose create call succeeds. -/
def envC5 : StoreEnv :=
  { accountGet := Except.ok ⟨"e5", "e@f.g", "Eve"⟩
    getSessionOutcome := Except.error ⟨none⟩
    pictureOutcome := HttpOutcome.netError
    lookupOutcome := Except.error ⟨some 500⟩
    createOutcome := Except.ok ()
    now := "2024-06-06" }

/-- C5 counterexample: with a non-401 lookup error and a succeeding create
call, `storeUserData` does not return null — the lookup error is swallowed
as "not found" and a fresh record is created and returned. -/
theorem storeUserData_lookup_error_not_null :
    envC5.lookupOutcome = Except.error ⟨some 500⟩ ∧
    (storeUserData envC5).fst =
      JSReturn.value ⟨"e5", "e@f.g", "Eve", none, "2024-06-06"⟩ ∧
    (storeUserData envC5).fst ≠ JSReturn.null :=
  ⟨rfl, by decide, by decide⟩

/-- C5 amended: a create-call error is caught and surfaces as null, while a
lookup error is caught inside the lookup and treated as "no existing
profile", after which `storeUserData` proceeds to create: it returns the
created record when the create succeeds and null only when the create also
fails. -/
theorem storeUserData_error_policy (env : StoreEnv) (user : Identity)
    (hget : env.accountGet = Except.ok user) :
    (∀ e : AppError, env.createOutcome = Except.error e →
      (getExistingUser user.accountId env.lookupOutcome).fst = none →
      (storeUserData env).fst = JSReturn.null) ∧
    (∀ e : AppError, env.lookupOutcome = Except.error e →
      (storeUserData env).fst =
        (match env.createOutcome with
         | .ok _ => JSReturn.value
             { accountId := user.accountId, email := user.email, name := user.name,
               imageUrl := resolvedPicture env, joinedAt := env.now }
         | .error _ => JSReturn.null)) := by
  constructor
  · intro e hcre hnone
    cases hs : env.getSessionOutcome.toOption.bind Session.providerAccessToken with
    | none => simp [storeUserData, hget, hcre, hnone, hs]
    | some tok => simp [storeUserData, hget, hcre, hnone, hs]
  · intro e hlk
    cases hc : env.createOutcome with
    | ok u =>
        cases hs : env.getSessionOutcome.toOption.bind Session.providerAccessToken with
        | none => simp [storeUserData, resolvedPicture, getExistingUser, hget, hlk, hc, hs]
        | some tok => simp [storeUserData, resolvedPicture, getExistingUser, hget, hlk, hc, hs]
    | error e2 =>
        cases hs : env.getSessionOutcome.toOption.bind Session.providerAccessToken with
        | none => simp [storeUserData, getExistingUser, hget, hlk, hc, hs]
        | some tok => simp [storeUserData, getExistingUser, hget, hlk, hc, hs]

/-- Environment where both the lookup and the create call fail. -/
def envC5w : StoreEnv :=
  { accountGet := Except.ok ⟨"e5", "e@f.g", "Eve"⟩
    getSessionOutcome := Except.error ⟨none⟩
    pictureOutcome := HttpOutcome.netError
    lookupOutcome := Except.error ⟨some 500⟩
    createOutcome := Except.error ⟨some 503⟩
    now := "2024-06-07" }

/-- Witness: `storeUserData_error_policy` applied at a concrete environment
whose lookup and create calls both fail. -/
theorem storeUserData_error_policy_witness :
    (∀ e : AppError, envC5w.createOutcome = Except.error e →
      (getExistingUser "e5" envC5w.lookupOutcome).fst = none →
      (storeUserData envC5w).fst = JSReturn.null) ∧
    (∀ e : AppError, envC5w.lookupOutcome = Except.error e →
      (storeUserData envC5w).fst =
        (match envC5w.createOutcome with
         | .ok _ => JSReturn.value
             { accountId := "e5", email := "e@f.g", name := "Eve",
               imageUrl := resolvedPicture envC5w, joinedAt := envC5w.now }
         | .error _ => JSReturn.null)) :=
  storeUserData_error_policy envC5w ⟨"e5", "e@f.g", "Eve"⟩ rfl

/-- Environment whose identity resolution fails with code 401. -/
def envC8 : StoreEnv :=
  { accountGet := Except.error ⟨some 401⟩
    getSessionOutcome := Except.error ⟨none⟩
    pictureOutcome := HttpOutcome.netError
    lookupOutcome := Except.ok ([], 0)
    createOutcome := Except.ok ()
    now := "2024-07-07" }

/-- C8 counterexample: on an unauthorized (401) identity resolution,
`storeUserData` returns undefined (a bare return statement), not null. -/
theorem storeUserData_unauthorized_undef :
    (storeUserData envC8).fst = JSReturn.undef ∧
    (storeUserData envC8).fst ≠ JSReturn.null := by decide

/-- C8 amended: on an unauthorized (401) identity resolution neither
function throws and both issue the sign-in redirect; `getUser` returns
null while `storeUserData` returns undefined (a bare return). -/
theorem unauthorized_yields_no_profile (senv : StoreEnv) (genv : GetUserEnv) (e : AppError)
    (h1 : senv.accountGet = Except.error e)
    (h2 : genv.accountGet = Except.error e)
    (hc : e.code = some 401) :
    storeUserData senv =
      (JSReturn.undef, [Event.accountGetCall, Event.redirectCall "/sign-in"]) ∧
    getUser genv =
      (JSReturn.null, [Event.accountGetCall, Event.redirectCall "/sign-in"]) := by
  simp [storeUserData, getUser, h1, h2, hc]

/-- Get-user environment whose identity resolution fails with code 401. -/
def genvC8 : GetUserEnv :=
  { accountGet := Except.error ⟨some 401⟩
    lookupOutcome := Except.ok ([], 0) }

/-- Witness: `unauthorized_yields_no_profile` applied at concrete
environments whose identity resolution fails with code 401. -/
theorem unauthorized_yields_no_profile_witness :
    storeUserData envC8 =
      (JSReturn.undef, [Event.accountGetCall, Event.redirectCall "/sign-in"]) ∧
    getUser genvC8 =
      (JSReturn.null, [Event.accountGetCall, Event.redirectCall "/sign-in"]) :=
  unauthorized_yields_no_profile envC8 genvC8 ⟨some 401⟩ rfl rfl rfl

/-- C10: for an authenticated identity, `getUser` issues exactly one list
call with an accountId equality query and a select projection of exactly
the five fields name, email, imageUrl, joinedAt, accountId, and returns the
first returned document, or null when no document matches. -/
theorem getUser_select_projection (env : GetUserEnv) (user : Identity)
    (documents : List StoredProfile) (total : Nat)
    (hget : env.accountGet = Except.ok user)
    (hlk : env.lookupOutcome = Except.ok (documents, total)) :
    (getUser env).snd =
      [Event.accountGetCall,
       Event.listCall [Query.equal "accountId" user.accountId,
         Query.select ["name", "email", "imageUrl", "joinedAt", "accountId"]]] ∧
    (getUser env).fst =
      (match documents with
       | [] => JSReturn.null
       | d :: _ => JSReturn.value d) := by
  cases documents <;> simp [getUser, getUserSelectFields, hget, hlk]

/-- Get-user environment with one matching stored profile. -/
def genvC10 : GetUserEnv :=
  { accountGet := Except.ok ⟨"f6", "f@g.h", "Fay"⟩
    lookupOutcome := Except.ok ([⟨"f6", "f@g.h", "Fay", some "pic6", "2024-08-08"⟩], 1) }

/-- Witness: `getUser_select_projection` applied at a concrete environment
with one matching document. -/
theorem getUser_select_projection_witness :
    (getUser genvC10).snd =
      [Event.accountGetCall,
       Event.listCall [Query.equal "accountId" "f6",
         Query.select ["name", "email", "imageUrl", "joinedAt", "accountId"]]] ∧
    (getUser genvC10).fst =
      (match [(⟨"f6", "f@g.h", "Fay", some "pic6", "2024-08-08"⟩ : StoredProfile)] with
       | [] => JSReturn.null
       | d :: _ => JSReturn.value d) :=
  getUser_select_projection genvC10 ⟨"f6", "f@g.h", "Fay"⟩
    [⟨"f6", "f@g.h", "Fay", some "pic6", "2024-08-08"⟩] 1 rfl rfl

end AuthApi
